import Mathlib

/-!
Verification of the gchat-discourse synchronization bridge.

This file gives a shallow embedding of the core synchronization engine of the
repository (the `gchat_discourse` package under `src/`):

* `db.py`               -> `DbState` and its lookup/upsert operations,
* `sync_gchat_to_discourse.py` -> `make_title_and_body`,
  `sync_space_to_category`, `sync_messages_to_posts`, `sync_message_to_post`,
* `sync_discourse_to_gchat.py` -> `sync_post_to_message`,
* `user_manager.py`     -> `sanitize_username`,
  `generate_email_from_gchat_user`, `get_or_create_discourse_user`,
* `discourse_client.py` -> the typed response shapes (`CreateTopicResponse`,
  `PostDetailsResponse`, ...) and `create_user`'s 422-conflict fallback.

The two remote platforms (Google Chat, Discourse) are modelled as environments
of pure functions (`ChatEnv`, `ForumEnv`, `UserEnv`): each field is the typed
result of the corresponding adapter method.  Remote calls performed by the
engine are additionally recorded in an explicit event trace (`SyncEvent`) so
that properties of the form "never calls create_message" are statable.

Python semantics that the source relies on are modelled explicitly:

* truthiness of `Optional[int]` / `Optional[str]` values (`None`, `0` and `""`
  are falsy) via `pyTruthyInt` / `pyTruthyStr`;
* `str.splitlines()` via `pySplitlines` (the full boundary set of CPython for
  `str`, with `"\r\n"` counted as a single boundary);
* `str.strip()`-emptiness via `isBlank` (Python `str` whitespace set);
* `re` character classes of `user_manager.sanitize_username` on the ASCII
  fragment (`\w` = letters/digits/underscore, `\s` = whitespace); the inputs
  the engine feeds it and all inputs considered here are ASCII.
-/

namespace GchatDiscourse

/-- Truthiness of a Python `Optional[int]`: `None` and `0` are falsy.  Returns
the value exactly when it is truthy, so `match` on the result mirrors a Python
`if x:` on such a value. -/
def pyTruthyInt : Option Int → Option Int
  | some n => if n = 0 then none else some n
  | none => none

/-- Truthiness of a Python `Optional[str]`: `None` and `""` are falsy.  Returns
the value exactly when it is truthy. -/
def pyTruthyStr : Option String → Option String
  | some s => if s = "" then none else some s
  | none => none

/-- Line-boundary characters of CPython `str.splitlines` (LF, VT, FF, CR, FS,
GS, RS, NEL, LINE SEPARATOR, PARAGRAPH SEPARATOR; a CR LF pair counts once). -/
def isLineBoundary (c : Char) : Bool :=
  c = '\n' || c = '\x0b' || c = '\x0c' || c = '\r' || c = '\x1c' ||
  c = '\x1d' || c = '\x1e' || c = '\x85' || c = '\u2028' || c = '\u2029'

/-- Whitespace characters stripped by CPython `str.strip()` and matched by the
regex class `\s` on `str` (ASCII whitespace, the C0 separators, NEL, NBSP and
the Unicode space separators). -/
def isPySpace (c : Char) : Bool :=
  c = ' ' || c = '\t' || c = '\n' || c = '\x0b' || c = '\x0c' || c = '\r' ||
  c = '\x1c' || c = '\x1d' || c = '\x1e' || c = '\x1f' || c = '\x85' ||
  c = '\xa0' || c = '\u1680' || ('\u2000' ≤ c && c ≤ '\u200a') ||
  c = '\u2028' || c = '\u2029' || c = '\u202f' || c = '\u205f' || c = '\u3000'
/-- Worker for `pySplitlines`.  The boolean records whether the previous
character was a CR, so that a following LF does not open a second line break
(CPython treats `"\r\n"` as one boundary).  A trailing fragment is emitted
only when non-empty, matching `str.splitlines`. -/
def pySplitlinesGo : Bool → List Char → List Char → List (List Char)
  | _, [], acc => if acc.isEmpty then [] else [acc.reverse]
  | prevCR, c :: cs, acc =>
    if c = '\n' then
      if prevCR then pySplitlinesGo false cs acc
      else acc.reverse :: pySplitlinesGo false cs []
    else if c = '\r' then acc.reverse :: pySplitlinesGo true cs []
    else if isLineBoundary c then acc.reverse :: pySplitlinesGo false cs []
    else pySplitlinesGo false cs (c :: acc)

/-- Embedding of CPython `str.splitlines()` (with `keepends=False`). -/
def pySplitlines (s : String) : List String :=
  (pySplitlinesGo false s.data []).map String.mk

/-- A string is blank when `str.strip()` would leave it empty, i.e. every
character is Python whitespace.  The source tests `if line.strip():`. -/
def isBlank (s : String) : Bool :=
  s.data.all isPySpace

/-- First line of `text` whose `strip()` is non-empty, as computed by the
`for line in text.splitlines(): if line.strip(): first_line = line; break`
loop of `make_title_and_body` (`sync_gchat_to_discourse.py`). -/
def firstNonBlankLine (text : String) : Option String :=
  (pySplitlines text).find? (fun l => !(isBlank l))

/-- The line `make_title_and_body` derives the title from: the first
non-blank line, falling back to the first line (`lines[0] if lines else
text`) when every line is blank. -/
def chosenTitleLine (text : String) : String :=
  match firstNonBlankLine text with
  | some l => l
  | none =>
    match pySplitlines text with
    | [] => text
    | l :: _ => l

/-- Embedding of `make_title_and_body(text, max_title_len)` from
`sync_gchat_to_discourse.py`: returns `("", "")` on empty input; otherwise the
title is the chosen line, truncated to `max_title_len - 3` characters with
`"..."` appended when it is longer than `max_title_len`, and the body is the
title, two newlines, and the complete original text. -/
def make_title_and_body (text : String) (maxTitleLen : Nat) : String × String :=
  if text = "" then ("", "")
  else
    let first_line := chosenTitleLine text
    let title :=
      if first_line.length ≤ maxTitleLen then first_line
      else String.mk (first_line.data.take (maxTitleLen - 3)) ++ "..."
    (title, title ++ "\n\n" ++ text)

/-! ## Mapping store (`db.py`)

Each SQLite table is an association list in insertion order.  `INSERT OR
REPLACE` deletes the row with the conflicting primary key and inserts the new
row (which therefore scans last), modelled by `upsertByKey`.  Unqualified
`SELECT ... WHERE` returns the first matching row in scan order, modelled by
`List.find?`. -/

/-- Upsert for a table keyed on its first column: drop the old row with this
key, append the new row. -/
def upsertByKey {β : Type} (l : List (String × β)) (k : String) (v : β) :
    List (String × β) :=
  l.filter (fun r => r.1 != k) ++ [(k, v)]

/-- Lookup by primary key: first row whose key matches. -/
def lookupByKey {β : Type} (l : List (String × β)) (k : String) : Option β :=
  (l.find? (fun r => r.1 == k)).map (fun r => r.2)

/-- State of the SQLite database of `db.py`.  Row layouts:
`spaceToCategory : (google_space_id, discourse_category_id)`;
`threadToTopic : (google_thread_id, (discourse_topic_id, google_space_id))`;
`messageToPost : (google_message_id, (discourse_post_id, google_thread_id))`;
`syncState : (space_id, last_sync_timestamp)`;
`userMapping : (gchat_user_id, (discourse_username, gchat_display_name,
gchat_email))`. -/
structure DbState where
  spaceToCategory : List (String × Int)
  threadToTopic : List (String × (Int × String))
  messageToPost : List (String × (Int × String))
  syncState : List (String × String)
  userMapping : List (String × (String × Option String × Option String))
deriving DecidableEq, Repr

/-- Embedding of `SyncDatabase.get_category_id`. -/
def DbState.get_category_id (db : DbState) (googleSpaceId : String) : Option Int :=
  lookupByKey db.spaceToCategory googleSpaceId

/-- Embedding of `SyncDatabase.add_space_category_mapping`. -/
def DbState.add_space_category_mapping (db : DbState) (googleSpaceId : String)
    (discourseCategoryId : Int) : DbState :=
  { db with spaceToCategory := upsertByKey db.spaceToCategory googleSpaceId discourseCategoryId }

/-- Embedding of `SyncDatabase.get_topic_id`. -/
def DbState.get_topic_id (db : DbState) (googleThreadId : String) : Option Int :=
  (lookupByKey db.threadToTopic googleThreadId).map (fun r => r.1)

/-- Embedding of `SyncDatabase.get_thread_id` (inverse lookup, first row in
scan order whose `discourse_topic_id` matches). -/
def DbState.get_thread_id (db : DbState) (discourseTopicId : Int) : Option String :=
  (db.threadToTopic.find? (fun r => r.2.1 == discourseTopicId)).map (fun r => r.1)

/-- Embedding of `SyncDatabase.add_thread_topic_mapping`. -/
def DbState.add_thread_topic_mapping (db : DbState) (googleThreadId : String)
    (discourseTopicId : Int) (googleSpaceId : String) : DbState :=
  { db with threadToTopic :=
      upsertByKey db.threadToTopic googleThreadId (discourseTopicId, googleSpaceId) }

/-- Embedding of `SyncDatabase.get_post_id`. -/
def DbState.get_post_id (db : DbState) (googleMessageId : String) : Option Int :=
  (lookupByKey db.messageToPost googleMessageId).map (fun r => r.1)

/-- Embedding of `SyncDatabase.get_message_id` (inverse lookup, first row in
scan order whose `discourse_post_id` matches). -/
def DbState.get_message_id (db : DbState) (discoursePostId : Int) : Option String :=
  (db.messageToPost.find? (fun r => r.2.1 == discoursePostId)).map (fun r => r.1)

/-- Embedding of `SyncDatabase.add_message_post_mapping`. -/
def DbState.add_message_post_mapping (db : DbState) (googleMessageId : String)
    (discoursePostId : Int) (googleThreadId : String) : DbState :=
  { db with messageToPost :=
      upsertByKey db.messageToPost googleMessageId (discoursePostId, googleThreadId) }

/-- Embedding of `SyncDatabase.update_last_sync_time`. -/
def DbState.update_last_sync_time (db : DbState) (spaceId timestamp : String) : DbState :=
  { db with syncState := upsertByKey db.syncState spaceId timestamp }

/-- Embedding of `SyncDatabase.get_last_sync_time`. -/
def DbState.get_last_sync_time (db : DbState) (spaceId : String) : Option String :=
  lookupByKey db.syncState spaceId

/-- Embedding of `SyncDatabase.add_user_mapping`. -/
def DbState.add_user_mapping (db : DbState) (gchatUserId discourseUsername : String)
    (gchatDisplayName gchatEmail : Option String) : DbState :=
  { db with userMapping :=
      upsertByKey db.userMapping gchatUserId (discourseUsername, gchatDisplayName, gchatEmail) }

/-- Embedding of `SyncDatabase.get_discourse_username`. -/
def DbState.get_discourse_username (db : DbState) (gchatUserId : String) : Option String :=
  (lookupByKey db.userMapping gchatUserId).map (fun r => r.1)

/-! ## User resolution (`user_manager.py`) -/

/-- Character class `\w` of the regexes in `sanitize_username` (ASCII
fragment: letters, digits, underscore). -/
def isPyWordChar (c : Char) : Bool :=
  c.isAlpha || c.isDigit || c = '_'

/-- Lowercase letter or digit, the class `[a-z0-9]` of
`re.sub(r'^[^a-z0-9]+', '', username)`. -/
def isLowerDigit (c : Char) : Bool :=
  c.isLower || c.isDigit

/-- Separator class `[_-]` of `re.sub(r'[_-]+', '_', username)` and of the
final `rstrip('_-')`. -/
def isSeparator (c : Char) : Bool :=
  c = '_' || c = '-'

/-- Embedding of `re.sub(r'[^\w\s-]', '', s)`: drop every character that is
not a word character, whitespace, or a dash. -/
def stripNonWordChars (l : List Char) : List Char :=
  l.filter (fun c => isPyWordChar c || isPySpace c || c = '-')

/-- Worker replacing each maximal run of characters satisfying `p` by the
single character `rep`; the boolean records whether we are inside a run.
This is `re.sub(r'[p]+', rep, s)` for a character class `p`. -/
def collapseRunsGo (p : Char → Bool) (rep : Char) : Bool → List Char → List Char
  | _, [] => []
  | inRun, c :: cs =>
    if p c then
      if inRun then collapseRunsGo p rep true cs
      else rep :: collapseRunsGo p rep true cs
    else c :: collapseRunsGo p rep false cs

/-- Embedding of `re.sub(r'[\s]+', '_', s)`. -/
def collapseWhitespaceRuns (l : List Char) : List Char :=
  collapseRunsGo isPySpace '_' false l

/-- Embedding of `re.sub(r'[_-]+', '_', s)`. -/
def collapseSeparatorRuns (l : List Char) : List Char :=
  collapseRunsGo isSeparator '_' false l

/-- Embedding of `re.sub(r'^[^a-z0-9]+', '', s)`: drop the leading run of
characters that are not lowercase letters or digits. -/
def stripLeadingNonAlnum (l : List Char) : List Char :=
  l.dropWhile (fun c => !(isLowerDigit c))

/-- Embedding of `username[:20]`. -/
def truncate20 (l : List Char) : List Char :=
  l.take 20

/-- Embedding of the minimum-length rule: `if len(username) < 3: username =
username + "_user"`. -/
def padShortUsername (l : List Char) : List Char :=
  if l.length < 3 then l ++ "_user".data else l

/-- Embedding of `username.rstrip('_-')`. -/
def rstripSeparators (l : List Char) : List Char :=
  (l.reverse.dropWhile isSeparator).reverse

/-- Embedding of `user_manager.sanitize_username`, applying the source's
transformation steps in order: lowercase; strip characters outside
`[\w\s-]`; collapse whitespace runs to `_`; collapse `[_-]` runs to `_`;
strip the leading non-`[a-z0-9]` run; truncate to 20 characters; append
`"_user"` when fewer than 3 characters remain; strip trailing `_`/`-`. -/
def sanitize_username (name : String) : String :=
  String.mk
    (rstripSeparators
      (padShortUsername
        (truncate20
          (stripLeadingNonAlnum
            (collapseSeparatorRuns
              (collapseWhitespaceRuns
                (stripNonWordChars (name.data.map Char.toLower))))))))

/-- Embedding of `user_manager.generate_email_from_gchat_user`: take the last
`/`-separated segment of the chat user id and build
`"gchat_" + id + "@" + domain`. -/
def pySplitSlashGo : List Char → List Char → List String
  | [], acc => [String.mk acc.reverse]
  | c :: cs, acc =>
    if c = '/' then String.mk acc.reverse :: pySplitSlashGo cs []
    else pySplitSlashGo cs (c :: acc)

/-- Embedding of Python `s.split('/')` (always returns at least one piece). -/
def pySplitSlash (s : String) : List String :=
  pySplitSlashGo s.data []

/-- Last element of `s.split('/')`, i.e. Python `s.split('/')[-1]`. -/
def lastSlashSegment (s : String) : String :=
  match (pySplitSlash s).getLast? with
  | some seg => seg
  | none => ""

/-- Embedding of `generate_email_from_gchat_user(gchat_user_id, domain)`. -/
def generate_email_from_gchat_user (gchatUserId domain : String) : String :=
  "gchat_" ++ lastSlashSegment gchatUserId ++ "@" ++ domain

/-! ## Typed adapter responses (`discourse_client.py` dataclasses)

Only the fields the engine reads are modelled.  Every field that
`from_dict` fills with `data.get(...)` is an `Option`.  The engine's
`isinstance(result, CreateTopicResponse)` checks are always true in the
integrated system (the client returns the dataclass or `None`), so the
dict-shaped fallback branches of `_sync_message_to_post` are dead code and
not modelled. -/

/-- The `Post` dataclass (field `id` only). -/
structure DiscoursePost where
  id : Option Int
deriving DecidableEq, Repr

/-- The `CreateTopicResponse` dataclass (fields `post`, `topic_id`). -/
structure CreateTopicResponse where
  post : Option DiscoursePost
  topic_id : Option Int
deriving DecidableEq, Repr

/-- The `PostDetailsResponse` dataclass (field `post`). -/
structure PostDetailsResponse where
  post : Option DiscoursePost
deriving DecidableEq, Repr

/-- The `Category` dataclass (field `id` only). -/
structure DiscourseCategory where
  id : Option Int
deriving DecidableEq, Repr

/-- The `CategoryShowResponse` dataclass (field `category`). -/
structure CategoryShowResponse where
  category : Option DiscourseCategory
deriving DecidableEq, Repr

/-- The `CreateCategoryResponse` dataclass (field `category`). -/
structure CreateCategoryResponse where
  category : Option DiscourseCategory
deriving DecidableEq, Repr

/-- The `User` dataclass (field `username` only). -/
structure DiscourseUser where
  username : Option String
deriving DecidableEq, Repr

/-- The `UserResponse` dataclass (field `user`). -/
structure UserResponse where
  user : Option DiscourseUser
deriving DecidableEq, Repr

/-- A Google Chat space as read by the engine: `space.get('displayName',
'Unnamed Space')`, so only the optional display name is modelled. -/
structure ChatSpace where
  displayName : Option String
deriving DecidableEq, Repr

/-- A Google Chat message as read by `_sync_message_to_post`: the engine only
uses `message.get('name', '')`, `message.get('text', '')` and
`message.get('thread', {}).get('name', '')`, so each field holds the value
after the default is applied (a missing field and `''` are
indistinguishable to the source). -/
structure ChatMessage where
  name : String
  text : String
  threadName : String
deriving DecidableEq, Repr

/-- Result of `GoogleChatClient.create_message` as read by the reverse
engine: `message.get('name', '')`. -/
structure ChatMessageResult where
  name : String
deriving DecidableEq, Repr

/-- Remote calls the engines make, recorded as an event trace.  The payload
of each creation call is the payload the source would send (and log on
failure). -/
inductive SyncEvent where
  | getSpace (spaceId : String)
  | getCategory (categoryId : Int)
  | createCategory (name : String) (parentCategoryId : Option Int)
  | createTopic (title : String) (raw : String) (categoryId : Int)
  | createPost (topicId : Int) (raw : String)
  | createMessage (spaceId : String) (text : String) (threadId : String)
deriving DecidableEq, Repr

/-- The Discourse adapter as a deterministic environment of pure functions
(one per client method used by the engines); `none` is a failed call. -/
structure ForumEnv where
  createTopic : String → String → Int → Option CreateTopicResponse
  createPost : Int → String → Option PostDetailsResponse
  getCategory : Int → Option CategoryShowResponse
  createCategory : String → Option Int → Option CreateCategoryResponse

/-- The Google Chat adapter as a deterministic environment. -/
structure ChatEnv where
  getSpace : String → Option ChatSpace
  createMessage : String → String → Option String → Option ChatMessageResult

/-! ## Forward sync engine (`sync_gchat_to_discourse.py`) -/

/-- Embedding of `GChatToDiscourseSync._sync_message_to_post(message,
space_id, category_id)`.  Returns the source's boolean together with the
updated database and the trace of remote creation calls.  Mirrors the
source line by line: idempotency check (Python truthiness, so a mapped post
id of `0` is not a skip), empty-text skip, thread-to-topic resolution
(`if thread_id:` then `if not topic_id:`), topic creation with
`make_title_and_body` or reply creation with the raw text, and the two
guarded mapping writes (`if thread_id and isinstance(topic_id, int)`,
`if isinstance(post_id, int)`). -/
def sync_message_to_post (env : ForumEnv) (db : DbState) (message : ChatMessage)
    (spaceId : String) (categoryId : Int) : Bool × DbState × List SyncEvent :=
  match pyTruthyInt (db.get_post_id message.name) with
  | some _ => (false, db, [])
  | none =>
    if message.text = "" then (false, db, [])
    else
      let threadId := message.threadName
      let topicLookup := if threadId = "" then none else db.get_topic_id threadId
      match pyTruthyInt topicLookup with
      | none =>
        let tb := make_title_and_body message.text 255
        match env.createTopic tb.1 tb.2 categoryId with
        | none => (false, db, [SyncEvent.createTopic tb.1 tb.2 categoryId])
        | some result =>
          let topicId := result.topic_id
          let postId := result.post.bind (fun p => p.id)
          let db1 :=
            match topicId with
            | some t =>
              if threadId = "" then db
              else db.add_thread_topic_mapping threadId t spaceId
            | none => db
          let db2 :=
            match postId with
            | some p => db1.add_message_post_mapping message.name p threadId
            | none => db1
          (true, db2, [SyncEvent.createTopic tb.1 tb.2 categoryId])
      | some topicId =>
        match env.createPost topicId message.text with
        | none => (false, db, [SyncEvent.createPost topicId message.text])
        | some result =>
          let postId := result.post.bind (fun p => p.id)
          let db1 :=
            match postId with
            | some p => db.add_message_post_mapping message.name p threadId
            | none => db
          (true, db1, [SyncEvent.createPost topicId message.text])

/-- The per-message loop of `sync_messages_to_posts`: fold
`_sync_message_to_post` over the messages, counting the `True` results and
accumulating database and trace.  The source's pagination `while` loop
enumerates a finite sequence of pages handed out by the adapter; `messages`
is that sequence, concatenated in order. -/
def sync_messages_loop (env : ForumEnv) (spaceId : String) (categoryId : Int) :
    List ChatMessage → Nat × DbState × List SyncEvent → Nat × DbState × List SyncEvent
  | [], acc => acc
  | m :: ms, acc =>
    let r := sync_message_to_post env acc.2.1 m spaceId categoryId
    sync_messages_loop env spaceId categoryId ms
      (if r.1 then acc.1 + 1 else acc.1, r.2.1, acc.2.2 ++ r.2.2)

set_option linter.unusedVariables false in
/-- Embedding of `GChatToDiscourseSync.sync_messages_to_posts(space_id,
since_timestamp)`.  `messages` is the adapter-reported message sequence and
`now` the value of `datetime.utcnow().isoformat()` at checkpoint-update
time.  The `sinceTimestamp` argument is carried exactly as in the source's
signature; the body, like the source, never reads it.  Fails fast with 0
when no truthy space-to-category mapping exists; after the loop a nonzero
count updates the space's checkpoint. -/
def sync_messages_to_posts (env : ForumEnv) (messages : List ChatMessage)
    (db : DbState) (spaceId : String) (sinceTimestamp : Option String)
    (now : String) : Nat × DbState × List SyncEvent :=
  match pyTruthyInt (db.get_category_id spaceId) with
  | none => (0, db, [])
  | some categoryId =>
    let r := sync_messages_loop env spaceId categoryId messages (0, db, [])
    if 0 < r.1 then (r.1, r.2.1.update_last_sync_time spaceId now, r.2.2)
    else r

/-- Embedding of the periodic catch-up caller (`__main__.py`,
`SyncService.periodic_sync`, per space): read the stored checkpoint and pass
it to `sync_messages_to_posts` as `since_timestamp`. -/
def periodic_sync_space (env : ForumEnv) (messages : List ChatMessage)
    (db : DbState) (spaceId : String) (now : String) :
    Nat × DbState × List SyncEvent :=
  sync_messages_to_posts env messages db spaceId (db.get_last_sync_time spaceId) now

/-- Embedding of `GChatToDiscourseSync.sync_space_to_category(space_id,
category_id, parent_category_id)`.  Mirrors the source order: fetch the
space first (error -> `None`), then the truthy-mapping check, then either
verify a caller-supplied category id (Python truthiness, so `category_id=0`
falls through to creation) or create a category named after the space's
display name (`space.get('displayName', 'Unnamed Space')`), rejecting a
response without a category object or with a `None` id; finally persist the
mapping. -/
def sync_space_to_category (chat : ChatEnv) (forum : ForumEnv) (db : DbState)
    (spaceId : String) (categoryId : Option Int) (parentCategoryId : Option Int) :
    Option Int × DbState × List SyncEvent :=
  match chat.getSpace spaceId with
  | none => (none, db, [SyncEvent.getSpace spaceId])
  | some space =>
    let spaceName := space.displayName.getD "Unnamed Space"
    match pyTruthyInt (db.get_category_id spaceId) with
    | some existingCategoryId => (some existingCategoryId, db, [SyncEvent.getSpace spaceId])
    | none =>
      match pyTruthyInt categoryId with
      | some cid =>
        match forum.getCategory cid with
        | none => (none, db, [SyncEvent.getSpace spaceId, SyncEvent.getCategory cid])
        | some _ =>
          (some cid, db.add_space_category_mapping spaceId cid,
            [SyncEvent.getSpace spaceId, SyncEvent.getCategory cid])
      | none =>
        match forum.createCategory spaceName parentCategoryId with
        | none =>
          (none, db,
            [SyncEvent.getSpace spaceId, SyncEvent.createCategory spaceName parentCategoryId])
        | some result =>
          match result.category with
          | none =>
            (none, db,
              [SyncEvent.getSpace spaceId, SyncEvent.createCategory spaceName parentCategoryId])
          | some categoryObj =>
            match categoryObj.id with
            | none =>
              (none, db,
                [SyncEvent.getSpace spaceId, SyncEvent.createCategory spaceName parentCategoryId])
            | some finalCategoryId =>
              (some finalCategoryId, db.add_space_category_mapping spaceId finalCategoryId,
                [SyncEvent.getSpace spaceId, SyncEvent.createCategory spaceName parentCategoryId])

/-! ## Reverse sync engine (`sync_discourse_to_gchat.py`) -/

/-- A Discourse post as read from the webhook payload by
`sync_post_to_message`: `post_data.get('id')`, `post_data.get('topic_id')`,
`post_data.get('raw', '')`, `post_data.get('username', '')`. -/
structure DiscoursePostData where
  id : Option Int
  topic_id : Option Int
  raw : String
  username : String
deriving DecidableEq, Repr

/-- Python `'/'.join(thread_id.split('/')[:2])`: the space component of a
thread resource name. -/
def spaceIdOfThreadId (threadId : String) : String :=
  String.intercalate "/" ((pySplitSlash threadId).take 2)

/-- Embedding of `DiscourseToGChatSync.sync_post_to_message(post_data)`.
Mirrors the source: the API-username loop check; the
`if self.db.get_message_id(post_id):` loop check (Python truthiness, so a
stored empty chat-message id does not stop the sync); thread resolution via
`get_thread_id(topic_id)` (again by truthiness); chat message creation in
the thread's space; and on success the message-to-post mapping write using
the created message's name (`message.get('name', '')`).  A webhook post
always carries its integer id; a payload without one would crash the
mapping insert (`NOT NULL`), and is modelled as leaving the store
unchanged. -/
def sync_post_to_message (chat : ChatEnv) (db : DbState) (apiUsername : String)
    (postData : DiscoursePostData) : Bool × DbState × List SyncEvent :=
  if postData.username = apiUsername then (false, db, [])
  else
    match pyTruthyStr (postData.id.bind db.get_message_id) with
    | some _ => (false, db, [])
    | none =>
      match pyTruthyStr (postData.topic_id.bind db.get_thread_id) with
      | none => (false, db, [])
      | some threadId =>
        let spaceId := spaceIdOfThreadId threadId
        match chat.createMessage spaceId postData.raw (some threadId) with
        | none => (false, db, [SyncEvent.createMessage spaceId postData.raw threadId])
        | some message =>
          let messageId := message.name
          let db1 :=
            match postData.id with
            | some postId => db.add_message_post_mapping messageId postId threadId
            | none => db
          (true, db1, [SyncEvent.createMessage spaceId postData.raw threadId])

/-! ## User resolution engine (`user_manager.py`, `discourse_client.py`) -/

/-- Outcome of the raw `POST /users.json` request issued with
`allow_errors=True` (`DiscourseClient._make_request`): a parsed
`UserResponse` on success, a structured error dict carrying the HTTP status
(`_status_code`, always a real nonzero HTTP status) on an error response, or
no response at all. -/
inductive CreateUserHttpResult where
  | success (resp : UserResponse)
  | httpError (status : Int)
  | noResponse
deriving DecidableEq, Repr

/-- The adapter surface used by the user resolution service: the raw user
creation request and `DiscourseClient.get_user` (`GET /users/{username}`). -/
structure UserEnv where
  postUsers : String → String → String → String → CreateUserHttpResult
  getUser : String → Option UserResponse

/-- Embedding of `DiscourseClient.create_user(name, email, password,
username)`: on an error response with status 422 (user may already exist),
fall back to fetching the existing account with `get_user`; any other error
fails; a success response is returned parsed. -/
def create_user (env : UserEnv) (name email password username : String) :
    Option UserResponse :=
  match env.postUsers name email password username with
  | CreateUserHttpResult.success resp => some resp
  | CreateUserHttpResult.httpError status =>
    if status = 422 then env.getUser username else none
  | CreateUserHttpResult.noResponse => none

/-- A Google Chat sender as read by `get_or_create_discourse_user`:
`gchat_sender.get('name', '')`, `gchat_sender.get('displayName', 'Unknown
User')`, `gchat_sender.get('email')`. -/
structure GChatSender where
  name : String
  displayName : Option String
  email : Option String
deriving DecidableEq, Repr

/-- The display name with the source's default applied. -/
def senderDisplayName (sender : GChatSender) : String :=
  sender.displayName.getD "Unknown User"

/-- The email the service uses: the sender's email when truthy (`if
gchat_email:`), else one generated from the chat user id. -/
def senderEmail (sender : GChatSender) : String :=
  match pyTruthyStr sender.email with
  | some e => e
  | none => generate_email_from_gchat_user sender.name "gchat.local"

/-- Embedding of `UserManager.get_or_create_discourse_user(gchat_sender)`.
`password` stands for the freshly generated `secrets.token_urlsafe(32)`.
Mirrors the source: missing user id fails; a truthy stored mapping is
returned as is; otherwise a Discourse account is created (or, on a 422
conflict inside `create_user`, the existing one fetched), a response without
a user object fails, and on success the mapping is persisted and the actual
username returned.  The unreachable corner in which the returned user object
has no username (the mapping insert would then violate `NOT NULL`) is
modelled as a failure that leaves the store unchanged. -/
def get_or_create_discourse_user (env : UserEnv) (db : DbState)
    (sender : GChatSender) (password : String) : Option String × DbState :=
  if sender.name = "" then (none, db)
  else
    match pyTruthyStr (db.get_discourse_username sender.name) with
    | some discourseUsername => (some discourseUsername, db)
    | none =>
      let displayName := senderDisplayName sender
      let username := sanitize_username displayName
      let email := senderEmail sender
      match create_user env displayName email password username with
      | none => (none, db)
      | some userResponse =>
        match userResponse.user with
        | none => (none, db)
        | some user =>
          match user.username with
          | some actualUsername =>
            (some actualUsername,
              db.add_user_mapping sender.name actualUsername (some displayName) sender.email)
          | none => (none, db)

/-! ## Auxiliary predicates and concrete instances -/

/-- A message id carries a usable mapping: the stored post id is truthy
(nonzero), so the idempotency check `if self.db.get_post_id(message_id):`
skips the message. -/
def mappedNonzero (db : DbState) (messageId : String) : Prop :=
  ∃ p, db.get_post_id messageId = some p ∧ p ≠ 0

/-- A benign Discourse adapter: every creation call succeeds and reports a
well-formed response carrying a nonzero integer post id (real Discourse ids
are positive). -/
def wellFormedCreates (env : ForumEnv) : Prop :=
  (∀ title raw categoryId, ∃ resp post n,
      env.createTopic title raw categoryId = some resp ∧
      resp.post = some post ∧ post.id = some n ∧ n ≠ 0) ∧
  (∀ topicId raw, ∃ resp post n,
      env.createPost topicId raw = some resp ∧
      resp.post = some post ∧ post.id = some n ∧ n ≠ 0)

/-- A Chat adapter whose space fetch always fails but whose message creation
succeeds. -/
def chatEnvNoSpace : ChatEnv where
  getSpace := fun _ => none
  createMessage := fun _ _ _ => some { name := "spaces/S/messages/99" }

/-- A Discourse adapter where every call fails. -/
def forumEnvAllFail : ForumEnv where
  createTopic := fun _ _ _ => none
  createPost := fun _ _ => none
  getCategory := fun _ => none
  createCategory := fun _ _ => none

/-- A Discourse adapter whose creations always succeed with fixed
well-formed responses. -/
def forumEnvOk : ForumEnv where
  createTopic := fun _ _ _ =>
    some { post := some { id := some 11 }, topic_id := some 7 }
  createPost := fun _ _ => some { post := some { id := some 12 } }
  getCategory := fun _ => some { category := some { id := some 42 } }
  createCategory := fun _ _ => some { category := some { id := some 42 } }

/-- A Discourse adapter whose topic creation reports success but whose
response carries no usable post id (`post.id` is `None`). -/
def forumEnvBadShape : ForumEnv where
  createTopic := fun _ _ _ => some { post := some { id := none }, topic_id := some 5 }
  createPost := fun _ _ => none
  getCategory := fun _ => none
  createCategory := fun _ _ => none

/-- Store in which the forum post 7 is recorded as the mirror of a chat
message whose stored id is the empty string, and the topic 3 is mapped to a
chat thread. -/
def dbLoop : DbState where
  spaceToCategory := []
  threadToTopic := [("spaces/S/threads/T", (3, "spaces/S"))]
  messageToPost := [("", (7, "spaces/S/threads/T"))]
  syncState := []
  userMapping := []

/-- A forum post authored by a human, whose id 7 already appears in
`dbLoop.messageToPost`. -/
def postLoop : DiscoursePostData where
  id := some 7
  topic_id := some 3
  raw := "hello from the forum"
  username := "alice"

/-- Store mapping the space `spaces/S` to category 3 and nothing else. -/
def dbSpaceOnly : DbState where
  spaceToCategory := [("spaces/S", 3)]
  threadToTopic := []
  messageToPost := []
  syncState := []
  userMapping := []

/-- A chat message with text and no thread. -/
def msgHello : ChatMessage where
  name := "spaces/S/messages/1"
  text := "hello"
  threadName := ""

/-- A Chat adapter that reports a space named `My Space` for every id. -/
def chatEnvSpaceOk : ChatEnv where
  getSpace := fun _ => some { displayName := some "My Space" }
  createMessage := fun _ _ _ => some { name := "spaces/S/messages/99" }

/-- The empty store. -/
def emptyDb : DbState where
  spaceToCategory := []
  threadToTopic := []
  messageToPost := []
  syncState := []
  userMapping := []

/-- The 300-`'A'` literal input of the spec's title-derivation test. -/
def threeHundredAs : String :=
  String.mk (List.replicate 300 'A')

/-- A user adapter that reports a 422 conflict on every creation attempt and
returns an existing account on fetch. -/
def userEnvConflict : UserEnv where
  postUsers := fun _ _ _ _ => CreateUserHttpResult.httpError 422
  getUser := fun _ => some { user := some { username := some "john_doe" } }

/-- A chat sender without a stored mapping. -/
def senderJohn : GChatSender where
  name := "users/123456"
  displayName := some "John Doe"
  email := none

/-! ## Store lemmas and sanity checks -/

/-- Scan of an upserted table: the first row matching key `x` is the new row
when `x` is the upserted key, and otherwise the row the scan found before. -/
theorem findRow_upsertByKey {β : Type} (l : List (String × β)) (k x : String) (v : β) :
    (upsertByKey l k v).find? (fun r => r.1 == x) =
      if x = k then some (k, v) else l.find? (fun r => r.1 == x) := by
  induction l with
  | nil =>
    by_cases h : x = k
    · subst h; simp [upsertByKey]
    · have hk : (k == x) = false := beq_eq_false_iff_ne.mpr (fun hh => h hh.symm)
      simp [upsertByKey, List.find?, hk, h]
  | cons r l ih =>
    by_cases hr : r.1 = k
    · have h1 : upsertByKey (r :: l) k v = upsertByKey l k v := by
        simp [upsertByKey, List.filter_cons, hr]
      rw [h1, ih]
      by_cases hx : x = k
      · simp [hx]
      · have hrx : (r.1 == x) = false :=
          beq_eq_false_iff_ne.mpr (by rw [hr]; exact fun hh => hx hh.symm)
        simp [hx, List.find?, hrx]
    · have h1 : upsertByKey (r :: l) k v = r :: upsertByKey l k v := by
        simp [upsertByKey, List.filter_cons, hr]
      rw [h1]
      by_cases hrx : r.1 = x
      · have hp : (r.1 == x) = true := beq_iff_eq.mpr hrx
        have hx : ¬ x = k := fun hh => hr (hrx.trans hh)
        simp [List.find?, hp, hx]
      · have hp : (r.1 == x) = false := beq_eq_false_iff_ne.mpr hrx
        simp [List.find?, hp, ih]

/-- Key lemma on the upsert/lookup pair: after an upsert, looking up the
upserted key finds the new value and any other key finds what it found
before. -/
theorem lookupByKey_upsertByKey {β : Type} (l : List (String × β)) (k x : String) (v : β) :
    lookupByKey (upsertByKey l k v) x = if x = k then some v else lookupByKey l x := by
  unfold lookupByKey
  rw [findRow_upsertByKey]
  by_cases h : x = k <;> simp [h]

/-- Sanity check: the spec's first title-derivation literal case. -/
example : make_title_and_body "\n\nTitle line\nThis is the body\nMore body" 255 =
    ("Title line",
      "Title line\n\n\n\nTitle line\nThis is the body\nMore body") := by
  decide

/-! ## Claim theorems -/

/-- Claim C7: `sanitize_username` applies, in order, lowercasing, stripping
of characters outside the kept class, collapsing of whitespace runs to a
single underscore, collapsing of separator runs, stripping of the leading
non-alphanumeric run, truncation to 20 characters, appending of the literal
suffix `"_user"` when fewer than 3 characters remain, and stripping of
trailing underscores/dashes; and the literal cases `"John Doe" ->
"john_doe"`, `"User@123!" -> "user123"`, `"ab" -> "ab_user"`,
`"_username" -> "username"` hold. -/
theorem c7_sanitize_username_spec :
    (∀ name : String,
      sanitize_username name =
        String.mk (rstripSeparators (padShortUsername (truncate20
          (stripLeadingNonAlnum (collapseSeparatorRuns (collapseWhitespaceRuns
            (stripNonWordChars (name.data.map Char.toLower))))))))) ∧
    sanitize_username "John Doe" = "john_doe" ∧
    sanitize_username "User@123!" = "user123" ∧
    sanitize_username "ab" = "ab_user" ∧
    sanitize_username "_username" = "username" :=
  ⟨fun _ => rfl, by decide, by decide, by decide, by decide⟩

/-- Claim C8: `sync_messages_to_posts` returns the same count, produces the
same store and issues the same remote calls for any two values of
`since_timestamp` (the parameter is accepted but never read), and the
periodic catch-up caller, which passes the stored checkpoint, gets exactly
the behavior of any other timestamp. -/
theorem c8_since_timestamp_has_no_effect :
    (∀ (env : ForumEnv) (messages : List ChatMessage) (db : DbState)
        (spaceId : String) (ts₁ ts₂ : Option String) (now : String),
      sync_messages_to_posts env messages db spaceId ts₁ now =
        sync_messages_to_posts env messages db spaceId ts₂ now) ∧
    (∀ (env : ForumEnv) (messages : List ChatMessage) (db : DbState)
        (spaceId : String) (ts : Option String) (now : String),
      periodic_sync_space env messages db spaceId now =
        sync_messages_to_posts env messages db spaceId ts now) :=
  ⟨fun _ _ _ _ _ _ _ => rfl, fun _ _ _ _ _ _ => rfl⟩

/-- Claim C10: `sync_space_to_category` fetches the space before consulting
the stored mapping, so whenever the space fetch fails it returns `none` and
changes nothing — even when the store already maps this space (see the
witness, whose store has the mapping). -/
theorem c10_get_space_failure_returns_none (chat : ChatEnv) (forum : ForumEnv)
    (db : DbState) (spaceId : String) (categoryId parentCategoryId : Option Int)
    (h : chat.getSpace spaceId = none) :
    sync_space_to_category chat forum db spaceId categoryId parentCategoryId =
      (none, db, [SyncEvent.getSpace spaceId]) := by
  unfold sync_space_to_category
  rw [h]

/-- Witness for C10 at a store that does contain a mapping for the space. -/
theorem c10_witness :
    dbSpaceOnly.get_category_id "spaces/S" = some 3 ∧
    sync_space_to_category chatEnvNoSpace forumEnvOk dbSpaceOnly "spaces/S" none none =
      (none, dbSpaceOnly, [SyncEvent.getSpace "spaces/S"]) :=
  ⟨by decide,
   c10_get_space_failure_returns_none chatEnvNoSpace forumEnvOk dbSpaceOnly
     "spaces/S" none none rfl⟩

/-- Counterexample to claim C1 as stated: in `dbLoop` a `MessagePostMapping`
row with `forum_post_id = 7` exists (its stored chat message id is the empty
string), the author is not the API user, and yet `sync_post_to_message`
returns `True`, calls the Chat adapter's `create_message`, and writes a
mapping row — because `if self.db.get_message_id(post_id):` treats the
returned empty string as falsy. -/
theorem c1_counterexample :
    (∃ row ∈ dbLoop.messageToPost, row.2.1 = 7) ∧
    postLoop.id = some 7 ∧
    postLoop.username ≠ "bridge_bot" ∧
    (sync_post_to_message chatEnvNoSpace dbLoop "bridge_bot" postLoop).1 = true ∧
    (sync_post_to_message chatEnvNoSpace dbLoop "bridge_bot" postLoop).2.2 =
      [SyncEvent.createMessage "spaces/S" "hello from the forum" "spaces/S/threads/T"] ∧
    (sync_post_to_message chatEnvNoSpace dbLoop "bridge_bot" postLoop).2.1 ≠ dbLoop := by
  decide

/-- Claim C1 as amended: if the author username equals the configured API
username, or the `MessagePostMapping` lookup by the post's id yields a
non-empty chat message id, then `sync_post_to_message` returns `False`,
issues no remote call, and leaves the store unchanged. -/
theorem c1_amended_loop_prevention (chat : ChatEnv) (db : DbState)
    (apiUsername : String) (post : DiscoursePostData)
    (h : post.username = apiUsername ∨
      ∃ s, post.id.bind db.get_message_id = some s ∧ s ≠ "") :
    sync_post_to_message chat db apiUsername post = (false, db, []) := by
  unfold sync_post_to_message
  by_cases hu : post.username = apiUsername
  · rw [if_pos hu]
  · rw [if_neg hu]
    rcases h with h | ⟨s, hs, hne⟩
    · exact absurd h hu
    · rw [hs]
      simp [pyTruthyStr, hne]

/-- Witness for the amended C1, covering both disjuncts: a post by the API
user, and a post whose id is mapped to a non-empty chat message id. -/
theorem c1_amended_witness :
    sync_post_to_message chatEnvNoSpace dbLoop "alice" postLoop =
      (false, dbLoop, []) ∧
    sync_post_to_message chatEnvNoSpace
        { dbLoop with messageToPost := [("spaces/S/messages/5", (7, "spaces/S/threads/T"))] }
        "bridge_bot" postLoop =
      (false,
        { dbLoop with messageToPost := [("spaces/S/messages/5", (7, "spaces/S/threads/T"))] },
        []) :=
  ⟨c1_amended_loop_prevention chatEnvNoSpace dbLoop "alice" postLoop (Or.inl rfl),
   c1_amended_loop_prevention chatEnvNoSpace
     { dbLoop with messageToPost := [("spaces/S/messages/5", (7, "spaces/S/threads/T"))] }
     "bridge_bot" postLoop
     (Or.inr ⟨"spaces/S/messages/5", rfl, by decide⟩)⟩

/-- Claim C9: with an adapter response that is truthy but carries no integer
post id, `_sync_message_to_post` returns `True` without recording any
message-to-post mapping, the batch count includes the message, and a second
invocation attempts the same remote creation again. -/
theorem c9_truthy_result_without_mapping :
    (sync_message_to_post forumEnvBadShape dbSpaceOnly msgHello "spaces/S" 3).1 = true ∧
    (sync_message_to_post forumEnvBadShape dbSpaceOnly msgHello "spaces/S" 3).2.1.get_post_id
        msgHello.name = none ∧
    sync_messages_to_posts forumEnvBadShape [msgHello] dbSpaceOnly "spaces/S" none "t1" =
      (1, { dbSpaceOnly with syncState := [("spaces/S", "t1")] },
        [SyncEvent.createTopic "hello" "hello\n\nhello" 3]) ∧
    sync_messages_to_posts forumEnvBadShape [msgHello]
        { dbSpaceOnly with syncState := [("spaces/S", "t1")] } "spaces/S" none "t2" =
      (1, { dbSpaceOnly with syncState := [("spaces/S", "t2")] },
        [SyncEvent.createTopic "hello" "hello\n\nhello" 3]) := by
  decide

/-- Helper: on non-empty input `make_title_and_body` returns the
(possibly truncated) chosen line and the body built from it. -/
theorem make_title_and_body_of_ne (text : String) (maxLen : Nat) (h : text ≠ "") :
    make_title_and_body text maxLen =
      ((if (chosenTitleLine text).length ≤ maxLen then chosenTitleLine text
        else String.mk ((chosenTitleLine text).data.take (maxLen - 3)) ++ "..."),
       (if (chosenTitleLine text).length ≤ maxLen then chosenTitleLine text
        else String.mk ((chosenTitleLine text).data.take (maxLen - 3)) ++ "...") ++
         "\n\n" ++ text) := by
  unfold make_title_and_body
  rw [if_neg h]

set_option maxRecDepth 40000 in
/-- Claim C4: the title is the chosen line (first non-blank line, first line
when all are blank, `""` on empty input), truncated to 252 characters plus
`"..."` exactly when the chosen line exceeds 255 characters; the body is the
(possibly truncated) title, two newlines, and the complete untruncated
original text, and is empty only for empty input; and the literal cases of
the spec (the 300-`'A'` input and the whitespace-only input) hold. -/
theorem c4_make_title_and_body_spec :
    make_title_and_body "" 255 = ("", "") ∧
    (∀ text : String, text ≠ "" →
      (make_title_and_body text 255).2 =
        (make_title_and_body text 255).1 ++ "\n\n" ++ text ∧
      (make_title_and_body text 255).2 ≠ "") ∧
    (∀ text : String, text ≠ "" → (chosenTitleLine text).length ≤ 255 →
      (make_title_and_body text 255).1 = chosenTitleLine text) ∧
    (∀ text : String, text ≠ "" → 255 < (chosenTitleLine text).length →
      (make_title_and_body text 255).1 =
        String.mk ((chosenTitleLine text).data.take 252) ++ "..." ∧
      (make_title_and_body text 255).1.length = 255) ∧
    ((make_title_and_body (threeHundredAs ++ "\nrest of message") 255).1.length = 255 ∧
      (∃ pre, (make_title_and_body (threeHundredAs ++ "\nrest of message") 255).1 =
        pre ++ "...") ∧
      (∃ pre, (make_title_and_body (threeHundredAs ++ "\nrest of message") 255).2 =
        pre ++ "rest of message")) ∧
    make_title_and_body "\n   \n\t\n" 255 = ("", "\n\n" ++ "\n   \n\t\n") := by
  refine ⟨by decide, ?_, ?_, ?_, ⟨?_, ?_, ?_⟩, by decide⟩
  · intro text h
    rw [make_title_and_body_of_ne text 255 h]
    refine ⟨rfl, ?_⟩
    intro hempty
    have hlen := congrArg String.length hempty
    rw [String.length_append, String.length_append] at hlen
    have h2 : ("\n\n" : String).length = 2 := rfl
    have h0 : ("" : String).length = 0 := rfl
    omega
  · intro text h hle
    rw [make_title_and_body_of_ne text 255 h]
    exact if_pos hle
  · intro text h hgt
    rw [make_title_and_body_of_ne text 255 h]
    have hif :
        (if (chosenTitleLine text).length ≤ 255 then chosenTitleLine text
          else String.mk ((chosenTitleLine text).data.take (255 - 3)) ++ "...") =
          String.mk ((chosenTitleLine text).data.take 252) ++ "..." :=
      if_neg (by omega)
    refine ⟨hif, ?_⟩
    rw [hif, String.length_append]
    have hl : (String.mk ((chosenTitleLine text).data.take 252)).length = 252 := by
      show ((chosenTitleLine text).data.take 252).length = 252
      rw [List.length_take]
      have : 255 < (chosenTitleLine text).data.length := hgt
      omega
    rw [hl]
    decide
  · decide
  · exact ⟨String.mk (List.replicate 252 'A'), by decide⟩
  · exact ⟨String.mk (List.replicate 252 'A') ++ "...\n\n" ++ threeHundredAs ++ "\n",
      by decide⟩

set_option maxRecDepth 40000 in
/-- Witness for C4: the hypotheses of the universally quantified parts are
discharged at concrete inputs (a short text and a 300-character single
line). -/
theorem c4_witness :
    (make_title_and_body "hi\nthere" 255).2 =
      (make_title_and_body "hi\nthere" 255).1 ++ "\n\n" ++ "hi\nthere" ∧
    (make_title_and_body "hi\nthere" 255).1 = chosenTitleLine "hi\nthere" ∧
    (make_title_and_body threeHundredAs 255).1.length = 255 :=
  ⟨(c4_make_title_and_body_spec.2.1 "hi\nthere" (by decide)).1,
   c4_make_title_and_body_spec.2.2.1 "hi\nthere" (by decide) (by decide),
   (c4_make_title_and_body_spec.2.2.2.1 threeHundredAs (by decide) (by decide)).2⟩

/-- Claim C3: once a call of `sync_space_to_category` has succeeded (with a
nonzero category id, as real Discourse ids are), calling it again with the
same arguments returns the same category id, leaves the store unchanged and
performs no remote category creation (its only remote call is the space
fetch). -/
theorem c3_sync_space_to_category_idempotent (chat : ChatEnv) (forum : ForumEnv)
    (db : DbState) (spaceId : String) (categoryId parentCategoryId : Option Int)
    (cid : Int) (db₁ : DbState) (evs : List SyncEvent)
    (h : sync_space_to_category chat forum db spaceId categoryId parentCategoryId =
      (some cid, db₁, evs))
    (hcid : cid ≠ 0) :
    sync_space_to_category chat forum db₁ spaceId categoryId parentCategoryId =
      (some cid, db₁, [SyncEvent.getSpace spaceId]) := by
  unfold sync_space_to_category at h ⊢
  cases hgs : chat.getSpace spaceId with
  | none => rw [hgs] at h; simp at h
  | some sp =>
    rw [hgs] at h
    dsimp only at h ⊢
    cases hm : pyTruthyInt (db.get_category_id spaceId) with
    | some e =>
      rw [hm] at h
      dsimp only at h
      injection h with h1 h2
      injection h2 with h2 h3
      obtain rfl : e = cid := Option.some.inj h1
      subst h2
      rw [hm]
    | none =>
      rw [hm] at h
      dsimp only at h
      have hmapped : ∀ c : Int, c = cid →
          pyTruthyInt ((db.add_space_category_mapping spaceId c).get_category_id spaceId) =
            some cid := by
        intro c hc
        subst hc
        have hq : (db.add_space_category_mapping spaceId c).get_category_id spaceId =
            some c := by
          unfold DbState.get_category_id DbState.add_space_category_mapping
          rw [lookupByKey_upsertByKey]
          simp
        rw [hq]
        simp [pyTruthyInt, hcid]
      cases hc : pyTruthyInt categoryId with
      | some c =>
        rw [hc] at h
        dsimp only at h
        cases hgc : forum.getCategory c with
        | none => rw [hgc] at h; simp at h
        | some cat =>
          rw [hgc] at h
          dsimp only at h
          injection h with h1 h2
          injection h2 with h2 h3
          obtain rfl : c = cid := Option.some.inj h1
          subst h2
          rw [hmapped _ rfl]
      | none =>
        rw [hc] at h
        dsimp only at h
        cases hcc : forum.createCategory (sp.displayName.getD "Unnamed Space") parentCategoryId with
        | none => rw [hcc] at h; simp at h
        | some result =>
          rw [hcc] at h
          dsimp only at h
          cases hcat : result.category with
          | none => rw [hcat] at h; simp at h
          | some categoryObj =>
            rw [hcat] at h
            dsimp only at h
            cases hid : categoryObj.id with
            | none => rw [hid] at h; simp at h
            | some fid =>
              rw [hid] at h
              dsimp only at h
              injection h with h1 h2
              injection h2 with h2 h3
              obtain rfl : fid = cid := Option.some.inj h1
              subst h2
              rw [hmapped _ rfl]

/-- Witness for C3: a first call that creates category 42 for an unmapped
space, and the second call that returns it unchanged. -/
theorem c3_witness :
    sync_space_to_category chatEnvSpaceOk forumEnvOk
        (emptyDb.add_space_category_mapping "spaces/S" 42) "spaces/S" none none =
      (some 42, emptyDb.add_space_category_mapping "spaces/S" 42,
        [SyncEvent.getSpace "spaces/S"]) :=
  c3_sync_space_to_category_idempotent chatEnvSpaceOk forumEnvOk emptyDb "spaces/S"
    none none 42 (emptyDb.add_space_category_mapping "spaces/S" 42)
    [SyncEvent.getSpace "spaces/S", SyncEvent.createCategory "My Space" none]
    (by decide) (by decide)

/-- Claim C6: when no mapping exists and account creation hits an
adapter-reported username conflict (HTTP 422), the service fetches the
existing account, persists a `UserMapping` for the sender, and returns the
existing account's username. -/
theorem c6_username_conflict_reuses_existing (env : UserEnv) (db : DbState)
    (sender : GChatSender) (password : String) (resp : UserResponse)
    (user : DiscourseUser) (uname : String)
    (hname : sender.name ≠ "")
    (hnomap : db.get_discourse_username sender.name = none)
    (hconflict : env.postUsers (senderDisplayName sender) (senderEmail sender) password
      (sanitize_username (senderDisplayName sender)) = CreateUserHttpResult.httpError 422)
    (hfetch : env.getUser (sanitize_username (senderDisplayName sender)) = some resp)
    (huser : resp.user = some user)
    (huname : user.username = some uname) :
    get_or_create_discourse_user env db sender password =
      (some uname,
        db.add_user_mapping sender.name uname (some (senderDisplayName sender)) sender.email) := by
  unfold get_or_create_discourse_user
  rw [if_neg hname, hnomap]
  show (match pyTruthyStr none with
    | some discourseUsername => (some discourseUsername, db)
    | none => _) = _
  simp only [pyTruthyStr]
  unfold create_user
  rw [hconflict]
  dsimp only
  rw [if_pos rfl, hfetch]
  dsimp only
  rw [huser]
  dsimp only
  rw [huname]

/-- Witness for C6: a conflicting creation for `senderJohn` resolves to the
existing `john_doe` account and records the mapping. -/
theorem c6_witness :
    get_or_create_discourse_user userEnvConflict emptyDb senderJohn "pw" =
      (some "john_doe",
        emptyDb.add_user_mapping "users/123456" "john_doe" (some "John Doe") none) := by
  exact c6_username_conflict_reuses_existing userEnvConflict emptyDb senderJohn "pw"
    { user := some { username := some "john_doe" } } { username := some "john_doe" }
    "john_doe" (by decide) rfl rfl rfl rfl rfl

/-! ### Helper lemmas for C2 and C5 -/

/-- Inversion of Python truthiness on optional integers. -/
theorem pyTruthyInt_eq_some {o : Option Int} {v : Int} (h : pyTruthyInt o = some v) :
    o = some v ∧ v ≠ 0 := by
  cases o with
  | none => simp [pyTruthyInt] at h
  | some n =>
    by_cases hn : n = 0
    · simp [pyTruthyInt, hn] at h
    · simp only [pyTruthyInt, if_neg hn, Option.some.injEq] at h
      subst h
      exact ⟨rfl, hn⟩

/-- Writing a message-to-post row changes exactly that key's lookup. -/
theorem get_post_id_add_message (db : DbState) (k : String) (p : Int) (t x : String) :
    (db.add_message_post_mapping k p t).get_post_id x =
      if x = k then some p else db.get_post_id x := by
  show (lookupByKey (upsertByKey db.messageToPost k (p, t)) x).map (fun r => r.1) = _
  rw [lookupByKey_upsertByKey]
  by_cases h : x = k <;> simp [h, DbState.get_post_id]

/-- A usable mapping survives a message-to-post write with a nonzero post id. -/
theorem mappedNonzero_add_of (db : DbState) (k : String) (p : Int) (t x : String)
    (hpnz : p ≠ 0) (h : x ≠ k → mappedNonzero db x) :
    mappedNonzero (db.add_message_post_mapping k p t) x := by
  by_cases hx : x = k
  · exact ⟨p, by rw [get_post_id_add_message, if_pos hx], hpnz⟩
  · obtain ⟨q, hq, hqnz⟩ := h hx
    exact ⟨q, by rw [get_post_id_add_message, if_neg hx, hq], hqnz⟩

/-- Thread-table and checkpoint writes do not affect message lookups. -/
theorem mappedNonzero_add_thread (db : DbState) (a : String) (b : Int) (c x : String) :
    mappedNonzero (db.add_thread_topic_mapping a b c) x ↔ mappedNonzero db x :=
  Iff.rfl

/-- Checkpoint writes do not affect message lookups. -/
theorem mappedNonzero_update_sync (db : DbState) (a b x : String) :
    mappedNonzero (db.update_last_sync_time a b) x ↔ mappedNonzero db x :=
  Iff.rfl

/-- Checkpoint writes do not affect the space-to-category lookup. -/
theorem get_category_id_update_sync (db : DbState) (a b y : String) :
    (db.update_last_sync_time a b).get_category_id y = db.get_category_id y :=
  rfl

/-- A message whose text is empty or which already has a usable mapping is
skipped: `_sync_message_to_post` returns `False`, writes nothing and calls
nothing. -/
theorem sync_message_skip (env : ForumEnv) (db : DbState) (m : ChatMessage)
    (spaceId : String) (categoryId : Int)
    (h : m.text = "" ∨ mappedNonzero db m.name) :
    sync_message_to_post env db m spaceId categoryId = (false, db, []) := by
  unfold sync_message_to_post
  rcases h with h | ⟨p, hp, hnz⟩
  · cases hm : pyTruthyInt (db.get_post_id m.name) with
    | some q => rfl
    | none =>
      dsimp only
      rw [if_pos h]
  · rw [hp]
    simp [pyTruthyInt, hnz]

/-- Under a benign adapter, one sync step preserves every usable mapping. -/
theorem sync_message_preserves_mapped (env : ForumEnv) (db : DbState)
    (m : ChatMessage) (spaceId : String) (categoryId : Int) (x : String)
    (hwf : wellFormedCreates env) (h : mappedNonzero db x) :
    mappedNonzero (sync_message_to_post env db m spaceId categoryId).2.1 x := by
  unfold sync_message_to_post
  dsimp only
  split
  · exact h
  · split
    · exact h
    · split
      · split
        · exact h
        · next result heq =>
          obtain ⟨resp, post, n, hct, hpost, hid, hnz⟩ :=
            hwf.1 (make_title_and_body m.text 255).1 (make_title_and_body m.text 255).2
              categoryId
          rw [hct] at heq
          obtain rfl : resp = result := Option.some.inj heq
          dsimp only
          rw [hpost]
          dsimp only [Option.bind]
          rw [hid]
          dsimp only
          split
          · split
            · exact mappedNonzero_add_of db m.name n m.threadName x hnz (fun _ => h)
            · exact mappedNonzero_add_of _ m.name n m.threadName x hnz (fun _ => h)
          · exact mappedNonzero_add_of db m.name n m.threadName x hnz (fun _ => h)
      · next topicId htl =>
        split
        · exact h
        · next result heq =>
          obtain ⟨resp, post, n, hcp, hpost, hid, hnz⟩ := hwf.2 topicId m.text
          rw [hcp] at heq
          obtain rfl : resp = result := Option.some.inj heq
          dsimp only
          rw [hpost]
          dsimp only [Option.bind]
          rw [hid]
          dsimp only
          exact mappedNonzero_add_of db m.name n m.threadName x hnz (fun _ => h)

/-- Under a benign adapter, a sync step on a non-empty message leaves that
message with a usable mapping. -/
theorem sync_message_establishes_mapped (env : ForumEnv) (db : DbState)
    (m : ChatMessage) (spaceId : String) (categoryId : Int)
    (hwf : wellFormedCreates env) (htext : m.text ≠ "") :
    mappedNonzero (sync_message_to_post env db m spaceId categoryId).2.1 m.name := by
  unfold sync_message_to_post
  dsimp only
  split
  · next q heq =>
    obtain ⟨ho, hq⟩ := pyTruthyInt_eq_some heq
    exact ⟨q, ho, hq⟩
  · split
    · next hte => exact absurd hte htext
    · split
      · split
        · next heq =>
          obtain ⟨resp, post, n, hct, hpost, hid, hnz⟩ :=
            hwf.1 (make_title_and_body m.text 255).1 (make_title_and_body m.text 255).2
              categoryId
          rw [hct] at heq
          exact Option.noConfusion heq
        · next result heq =>
          obtain ⟨resp, post, n, hct, hpost, hid, hnz⟩ :=
            hwf.1 (make_title_and_body m.text 255).1 (make_title_and_body m.text 255).2
              categoryId
          rw [hct] at heq
          obtain rfl : resp = result := Option.some.inj heq
          dsimp only
          rw [hpost]
          dsimp only [Option.bind]
          rw [hid]
          dsimp only
          split
          · split
            · exact mappedNonzero_add_of db m.name n m.threadName m.name hnz
                (fun hx => absurd rfl hx)
            · exact mappedNonzero_add_of _ m.name n m.threadName m.name hnz
                (fun hx => absurd rfl hx)
          · exact mappedNonzero_add_of db m.name n m.threadName m.name hnz
              (fun hx => absurd rfl hx)
      · next topicId htl =>
        split
        · next heq =>
          obtain ⟨resp, post, n, hcp, hpost, hid, hnz⟩ := hwf.2 topicId m.text
          rw [hcp] at heq
          exact Option.noConfusion heq
        · next result heq =>
          obtain ⟨resp, post, n, hcp, hpost, hid, hnz⟩ := hwf.2 topicId m.text
          rw [hcp] at heq
          obtain rfl : resp = result := Option.some.inj heq
          dsimp only
          rw [hpost]
          dsimp only [Option.bind]
          rw [hid]
          dsimp only
          exact mappedNonzero_add_of db m.name n m.threadName m.name hnz
            (fun hx => absurd rfl hx)

/-- One sync step never touches the space-to-category table. -/
theorem sync_message_preserves_category (env : ForumEnv) (db : DbState)
    (m : ChatMessage) (spaceId : String) (categoryId : Int) (y : String) :
    (sync_message_to_post env db m spaceId categoryId).2.1.get_category_id y =
      db.get_category_id y := by
  unfold sync_message_to_post
  cases hm : pyTruthyInt (db.get_post_id m.name) with
  | some q => rfl
  | none =>
    by_cases ht : m.text = ""
    · rw [if_pos ht]
    · rw [if_neg ht]
      dsimp only
      cases htl : pyTruthyInt
          (if m.threadName = "" then none else db.get_topic_id m.threadName) with
      | none =>
        try dsimp only
        cases hct : env.createTopic (make_title_and_body m.text 255).1
            (make_title_and_body m.text 255).2 categoryId with
        | none => rfl
        | some resp =>
          dsimp only
          cases hti : resp.topic_id with
          | none =>
            cases hpi : resp.post.bind (fun p => p.id) with
            | none => rfl
            | some p => rfl
          | some t =>
            dsimp only
            by_cases htn : m.threadName = ""
            · rw [if_pos htn]
              cases hpi : resp.post.bind (fun p => p.id) with
              | none => rfl
              | some p => rfl
            · rw [if_neg htn]
              cases hpi : resp.post.bind (fun p => p.id) with
              | none => rfl
              | some p => rfl
      | some topicId =>
        try dsimp only
        cases hcp : env.createPost topicId m.text with
        | none => rfl
        | some resp =>
          try dsimp only
          cases hpi : resp.post.bind (fun p => p.id) with
          | none => rfl
          | some p => rfl

/-- The message loop preserves every usable mapping. -/
theorem loop_preserves_mapped (env : ForumEnv) (spaceId : String) (categoryId : Int)
    (msgs : List ChatMessage) (hwf : wellFormedCreates env) :
    ∀ (acc : Nat × DbState × List SyncEvent) (x : String), mappedNonzero acc.2.1 x →
      mappedNonzero (sync_messages_loop env spaceId categoryId msgs acc).2.1 x := by
  induction msgs with
  | nil => intro acc x h; exact h
  | cons m ms ih =>
    intro acc x h
    simp only [sync_messages_loop]
    apply ih
    dsimp only
    exact sync_message_preserves_mapped env acc.2.1 m spaceId categoryId x hwf h

/-- After the message loop, every non-empty message of the batch has a usable
mapping. -/
theorem loop_establishes_mapped (env : ForumEnv) (spaceId : String) (categoryId : Int)
    (msgs : List ChatMessage) (hwf : wellFormedCreates env) :
    ∀ (acc : Nat × DbState × List SyncEvent), ∀ m ∈ msgs, m.text ≠ "" →
      mappedNonzero (sync_messages_loop env spaceId categoryId msgs acc).2.1 m.name := by
  induction msgs with
  | nil => intro acc m hm; cases hm
  | cons m0 ms ih =>
    intro acc m hm htext
    simp only [sync_messages_loop]
    rcases List.mem_cons.mp hm with rfl | hmem
    · apply loop_preserves_mapped env spaceId categoryId ms hwf
      dsimp only
      exact sync_message_establishes_mapped env acc.2.1 m spaceId categoryId hwf htext
    · exact ih _ m hmem htext

/-- If every message of the batch is empty or already usable-mapped, the loop
is the identity: nothing is counted, written or called. -/
theorem loop_skips (env : ForumEnv) (spaceId : String) (categoryId : Int)
    (msgs : List ChatMessage) :
    ∀ (acc : Nat × DbState × List SyncEvent),
      (∀ m ∈ msgs, m.text = "" ∨ mappedNonzero acc.2.1 m.name) →
      sync_messages_loop env spaceId categoryId msgs acc = acc := by
  induction msgs with
  | nil => intro acc _; rfl
  | cons m0 ms ih =>
    intro acc h
    simp only [sync_messages_loop]
    have hstep : sync_message_to_post env acc.2.1 m0 spaceId categoryId =
        (false, acc.2.1, []) :=
      sync_message_skip env acc.2.1 m0 spaceId categoryId (h m0 (List.mem_cons_self m0 ms))
    rw [hstep]
    dsimp only
    rw [List.append_nil]
    exact ih acc (fun m hm => h m (List.mem_cons_of_mem m0 hm))

/-- The message loop does not touch the space-to-category table. -/
theorem loop_preserves_category (env : ForumEnv) (spaceId : String) (categoryId : Int)
    (msgs : List ChatMessage) :
    ∀ (acc : Nat × DbState × List SyncEvent) (y : String),
      (sync_messages_loop env spaceId categoryId msgs acc).2.1.get_category_id y =
        acc.2.1.get_category_id y := by
  induction msgs with
  | nil => intro acc y; rfl
  | cons m ms ih =>
    intro acc y
    simp only [sync_messages_loop]
    rw [ih]
    dsimp only
    exact sync_message_preserves_category env acc.2.1 m spaceId categoryId y

/-- The message loop processes a concatenation left to right. -/
theorem sync_messages_loop_append (env : ForumEnv) (spaceId : String)
    (categoryId : Int) (xs ys : List ChatMessage) :
    ∀ acc, sync_messages_loop env spaceId categoryId (xs ++ ys) acc =
      sync_messages_loop env spaceId categoryId ys
        (sync_messages_loop env spaceId categoryId xs acc) := by
  induction xs with
  | nil => intro acc; rfl
  | cons m ms ih =>
    intro acc
    simp only [List.cons_append, sync_messages_loop]
    exact ih _

/-- Claim C2: under a benign adapter, re-running `sync_messages_to_posts`
over the unchanged message sequence syncs 0 messages, performs no remote
creation and leaves the store as the first run left it: every message the
first run synced is skipped by the `MessagePostMapping` existence check. -/
theorem c2_second_sync_is_noop (env : ForumEnv) (messages : List ChatMessage)
    (db : DbState) (spaceId : String) (ts₁ ts₂ : Option String) (now₁ now₂ : String)
    (c₁ : Nat) (db₁ : DbState) (e₁ : List SyncEvent)
    (hwf : wellFormedCreates env)
    (h1 : sync_messages_to_posts env messages db spaceId ts₁ now₁ = (c₁, db₁, e₁)) :
    sync_messages_to_posts env messages db₁ spaceId ts₂ now₂ = (0, db₁, []) := by
  unfold sync_messages_to_posts at h1 ⊢
  cases hcat : pyTruthyInt (db.get_category_id spaceId) with
  | none =>
    rw [hcat] at h1
    dsimp only at h1
    injection h1 with hc h1
    injection h1 with hdb hev
    subst hdb
    rw [hcat]
  | some categoryId =>
    rw [hcat] at h1
    dsimp only at h1
    have hmapped : ∀ m ∈ messages, m.text = "" ∨
        mappedNonzero
          (sync_messages_loop env spaceId categoryId messages (0, db, [])).2.1 m.name := by
      intro m hm
      by_cases ht : m.text = ""
      · exact Or.inl ht
      · exact Or.inr
          (loop_establishes_mapped env spaceId categoryId messages hwf (0, db, []) m hm ht)
    have hcatL : pyTruthyInt
        ((sync_messages_loop env spaceId categoryId messages (0, db, [])).2.1.get_category_id
          spaceId) = some categoryId := by
      rw [loop_preserves_category]
      exact hcat
    by_cases h0 : 0 < (sync_messages_loop env spaceId categoryId messages (0, db, [])).1
    · rw [if_pos h0] at h1
      injection h1 with hc h1
      injection h1 with hdb hev
      subst hdb
      rw [get_category_id_update_sync, hcatL]
      dsimp only
      rw [loop_skips env spaceId categoryId messages
        ((0 : Nat),
          (sync_messages_loop env spaceId categoryId messages
            (0, db, [])).2.1.update_last_sync_time spaceId now₁,
          ([] : List SyncEvent))
        (fun m hm => (hmapped m hm).imp id
          (fun hx => (mappedNonzero_update_sync _ _ _ _).mpr hx))]
      simp
    · rw [if_neg h0] at h1
      have hdb : (sync_messages_loop env spaceId categoryId messages (0, db, [])).2.1 = db₁ := by
        rw [h1]
      rw [← hdb, hcatL]
      dsimp only
      rw [loop_skips env spaceId categoryId messages
        ((0 : Nat), (sync_messages_loop env spaceId categoryId messages (0, db, [])).2.1,
          ([] : List SyncEvent))
        hmapped]
      simp

/-- Witness for C2: a first run that syncs one message, after which the
second run is a no-op. -/
theorem c2_witness :
    sync_messages_to_posts forumEnvOk [msgHello]
        (sync_messages_to_posts forumEnvOk [msgHello] dbSpaceOnly "spaces/S" none "t1").2.1
        "spaces/S" none "t2" =
      (0, (sync_messages_to_posts forumEnvOk [msgHello] dbSpaceOnly "spaces/S" none "t1").2.1,
        []) := by
  have hwf : wellFormedCreates forumEnvOk :=
    ⟨fun _ _ _ => ⟨_, _, 11, rfl, rfl, rfl, by decide⟩,
     fun _ _ => ⟨_, _, 12, rfl, rfl, rfl, by decide⟩⟩
  exact c2_second_sync_is_noop forumEnvOk [msgHello] dbSpaceOnly "spaces/S" none none
    "t1" "t2" _ _ _ hwf rfl

/-- Claim C5: a failing remote create for one message does not abort the
batch — the loop decomposes around the failed message, continuing with the
remaining messages from the post-failure state and a count that excludes the
failed message; and a failing create returns `False` with the attempted
payload recorded in the trace (the source logs exactly this payload), both
for the new-topic call and for the reply call. -/
theorem c5_partial_batch_failure_isolation :
    (∀ (env : ForumEnv) (spaceId : String) (categoryId : Int) (db : DbState)
        (pre post : List ChatMessage) (failing : ChatMessage)
        (c₁ : Nat) (db₁ : DbState) (e₁ : List SyncEvent)
        (db₂ : DbState) (e₂ : List SyncEvent),
      sync_messages_loop env spaceId categoryId pre (0, db, []) = (c₁, db₁, e₁) →
      sync_message_to_post env db₁ failing spaceId categoryId = (false, db₂, e₂) →
      sync_messages_loop env spaceId categoryId (pre ++ failing :: post) (0, db, []) =
        sync_messages_loop env spaceId categoryId post (c₁, db₂, e₁ ++ e₂)) ∧
    (∀ (env : ForumEnv) (db : DbState) (failing : ChatMessage) (spaceId : String)
        (categoryId : Int),
      pyTruthyInt (db.get_post_id failing.name) = none → failing.text ≠ "" →
      (failing.threadName = "" ∨ pyTruthyInt (db.get_topic_id failing.threadName) = none) →
      env.createTopic (make_title_and_body failing.text 255).1
          (make_title_and_body failing.text 255).2 categoryId = none →
      sync_message_to_post env db failing spaceId categoryId =
        (false, db, [SyncEvent.createTopic (make_title_and_body failing.text 255).1
          (make_title_and_body failing.text 255).2 categoryId])) ∧
    (∀ (env : ForumEnv) (db : DbState) (failing : ChatMessage) (spaceId : String)
        (categoryId topicId : Int),
      pyTruthyInt (db.get_post_id failing.name) = none → failing.text ≠ "" →
      pyTruthyInt (if failing.threadName = "" then none
        else db.get_topic_id failing.threadName) = some topicId →
      env.createPost topicId failing.text = none →
      sync_message_to_post env db failing spaceId categoryId =
        (false, db, [SyncEvent.createPost topicId failing.text])) := by
  refine ⟨?_, ?_, ?_⟩
  · intro env spaceId categoryId db pre post failing c₁ db₁ e₁ db₂ e₂ h1 h2
    rw [sync_messages_loop_append, h1]
    simp only [sync_messages_loop]
    try dsimp only
    rw [h2]
    rfl
  · intro env db failing spaceId categoryId hno ht hth hct
    unfold sync_message_to_post
    rw [hno]
    try dsimp only
    rw [if_neg ht]
    try dsimp only
    have htl : pyTruthyInt (if failing.threadName = "" then none
        else db.get_topic_id failing.threadName) = none := by
      rcases hth with h | h
      · rw [if_pos h]; rfl
      · by_cases htn : failing.threadName = ""
        · rw [if_pos htn]; rfl
        · rw [if_neg htn]; exact h
    rw [htl]
    try dsimp only
    rw [hct]
  · intro env db failing spaceId categoryId topicId hno ht htl hcp
    unfold sync_message_to_post
    rw [hno]
    try dsimp only
    rw [if_neg ht]
    try dsimp only
    rw [htl]
    try dsimp only
    rw [hcp]

/-- Witness for C5: a batch of one message whose topic creation fails —
the loop decomposition holds and the step records the attempted payload. -/
theorem c5_witness :
    sync_messages_loop forumEnvAllFail "spaces/S" 3 ([] ++ msgHello :: []) (0, emptyDb, []) =
      sync_messages_loop forumEnvAllFail "spaces/S" 3 []
        (0, emptyDb, [] ++ [SyncEvent.createTopic "hello" "hello\n\nhello" 3]) ∧
    sync_message_to_post forumEnvAllFail emptyDb msgHello "spaces/S" 3 =
      (false, emptyDb, [SyncEvent.createTopic "hello" "hello\n\nhello" 3]) := by
  have hstep := c5_partial_batch_failure_isolation.2.1 forumEnvAllFail emptyDb msgHello
    "spaces/S" 3 rfl (by decide) (Or.inl rfl) rfl
  refine ⟨?_, hstep⟩
  exact c5_partial_batch_failure_isolation.1 forumEnvAllFail "spaces/S" 3 emptyDb
    [] [] msgHello 0 emptyDb [] emptyDb [SyncEvent.createTopic "hello" "hello\n\nhello" 3]
    rfl hstep

end GchatDiscourse
